import Mathlib

/-!
Verification of the session lifecycle controller in `src/server.js`
(WhatsApp Web backend).

The JavaScript runs on a single cooperative scheduler: every handler and
async function executes atomically up to its next `await` / `setTimeout`
suspension point.  We embed the program as a labelled transition system:

* `Sys` holds the module-level mutable variables (`qrCodeData`, `isReady`,
  `clientReady`, `isReconnecting`, `initializationAttempts`), the multiset
  of pending suspended continuations and timers (`tasks`), and two ghost
  counters recording how many times `client.destroy()` and
  `client.initialize()` have been invoked.
* Each synchronous prefix of an async function (the code executed
  atomically up to the first suspension point) is a pure function
  `Sys → Sys`.
* `Step` relates a state to its successors: delivery of a transport event
  (handlers run atomically), resolution of a pending await, firing of a
  pending timer, or the manual `/reconnect` endpoint.

The `/send-msg` route handler is embedded separately as a pure function of
the state, the request body and oracles for the two transport calls it
makes (`getNumberId`, `sendMessage`); it returns the HTTP outcome, ghost
call counts for the transport calls it performed, and the state after the
handler ran.
-/

/-- Pending suspended continuations and timers of the scheduler.

* `destroyAwait`: `reconnectClient` has already set `isReconnecting := true`,
  reset `initializationAttempts` and invoked `client.destroy()`; it is
  suspended on that call (server.js line 249).
* `settleTimer d`: the `setTimeout(..., 2000)` scheduled by
  `reconnectClient` after `destroy` settled (line 258); `d` is the delay in
  milliseconds.
* `initAwait`: `initClient` has invoked `client.initialize()` and is
  suspended on it (line 216).
* `retryTimer d`: the `setTimeout(..., 5000)` scheduled by the `catch`
  block of `initClient` (line 226). -/
inductive Pending where
  | destroyAwait : Pending
  | settleTimer : Nat → Pending
  | initAwait : Pending
  | retryTimer : Nat → Pending
deriving DecidableEq

/-- The module-level mutable state of server.js (lines 148-151, 210-211),
the pending tasks of the cooperative scheduler, and ghost counters for the
transport calls `client.destroy()` and `client.initialize()`. -/
structure Sys where
  qrCodeData : Option (List Char)
  isReady : Bool
  clientReady : Bool
  isReconnecting : Bool
  initializationAttempts : Nat
  tasks : List Pending
  destroyCalls : Nat
  initCalls : Nat
deriving DecidableEq

/-- `const maxInitAttempts = 3` (server.js line 211). -/
def maxInitAttempts : Nat := 3

/-- Synchronous prefix of `reconnectClient` (server.js lines 238-249): if
`isReconnecting` is set, return at once; otherwise set the guard, reset the
attempt counter, invoke `client.destroy()` (ghost counter) and suspend on
it (`destroyAwait`). -/
def reconnectClient (s : Sys) : Sys :=
  if s.isReconnecting then s
  else
    { s with
      isReconnecting := true
      initializationAttempts := 0
      destroyCalls := s.destroyCalls + 1
      tasks := Pending.destroyAwait :: s.tasks }

/-- Resumption of `reconnectClient` once `client.destroy()` settles
(resolved or rejected — the rejection is caught and logged, lines
250-255): schedule the 2000 ms settle timer (line 258). -/
def finishDestroy (s : Sys) : Sys :=
  { s with tasks := Pending.settleTimer 2000 :: s.tasks.erase Pending.destroyAwait }

/-- Synchronous prefix of `initializeClient` (server.js lines 213-216):
set `isReconnecting := false`, invoke `client.initialize()` (ghost
counter) and suspend on it (`initAwait`). -/
def initClient (s : Sys) : Sys :=
  { s with
    isReconnecting := false
    initCalls := s.initCalls + 1
    tasks := Pending.initAwait :: s.tasks }

/-- The `catch` block of `initializeClient` (server.js lines 217-234): on
a rejected `client.initialize()`, increment `initializationAttempts`; if
still below `maxInitAttempts`, schedule the 5000 ms retry timer, otherwise
log and stop (nothing further is scheduled). -/
def initFailure (s : Sys) : Sys :=
  let a := s.initializationAttempts + 1
  { s with
    initializationAttempts := a
    tasks :=
      if a < maxInitAttempts then
        Pending.retryTimer 5000 :: s.tasks.erase Pending.initAwait
      else
        s.tasks.erase Pending.initAwait }

/-- Disconnect reasons are strings; `recoverableReason` is the condition of
server.js line 193: `reason === "NAVIGATION" || reason === "CONNECTION_CLOSED"`. -/
def recoverableReason (r : List Char) : Bool :=
  r = "NAVIGATION".toList || r = "CONNECTION_CLOSED".toList

/-- Transport events handled by the `client.on` registrations
(server.js lines 154-207).  `qr` carries the generated data-URL payload,
`disconnected` carries the reason string. -/
inductive Event where
  | qr : List Char → Event
  | ready : Event
  | authenticated : Event
  | authFailure : Event
  | disconnected : List Char → Event

/-- The event handlers of server.js lines 154-197, each executed
atomically.  The `disconnected` handler clears all flags (including
`isReconnecting`) and then, for a recoverable reason, runs the synchronous
prefix of `reconnectClient`. -/
def handleEvent : Event → Sys → Sys
  | Event.qr p, s => { s with qrCodeData := some p }
  | Event.ready, s =>
      { s with
        isReady := true
        clientReady := true
        isReconnecting := false
        qrCodeData := none }
  | Event.authenticated, s => s
  | Event.authFailure, s =>
      { s with
        isReady := false
        clientReady := false
        isReconnecting := false
        qrCodeData := none }
  | Event.disconnected r, s =>
      let s' := { s with
        isReady := false
        clientReady := false
        isReconnecting := false
        qrCodeData := none }
      if recoverableReason r then reconnectClient s' else s'

/-- Outcome of the `/reconnect` endpoint (server.js lines 492-508). -/
inductive ReconnectResponse where
  | conflict : ReconnectResponse
  | accepted : ReconnectResponse
deriving DecidableEq

/-- The `/reconnect` endpoint handler (server.js lines 492-508): answer 409
without touching anything if a reconnection is in flight, otherwise start
`reconnectClient` and answer 200. -/
def reconnectEndpoint (s : Sys) : Sys × ReconnectResponse :=
  if s.isReconnecting then (s, ReconnectResponse.conflict)
  else (reconnectClient s, ReconnectResponse.accepted)

/-- One atomic step of the cooperative scheduler: an event handler runs, a
pending await resolves (successfully or not), a pending timer fires and
runs its callback up to the next suspension point, or the `/reconnect`
endpoint handler runs. -/
inductive Step : Sys → Sys → Prop where
  | event (e : Event) (s : Sys) : Step s (handleEvent e s)
  | destroyResolved (s : Sys) (h : Pending.destroyAwait ∈ s.tasks) :
      Step s (finishDestroy s)
  | settleFired (s : Sys) (d : Nat) (h : Pending.settleTimer d ∈ s.tasks) :
      Step s (initClient { s with tasks := s.tasks.erase (Pending.settleTimer d) })
  | initResolved (s : Sys) (h : Pending.initAwait ∈ s.tasks) :
      Step s { s with tasks := s.tasks.erase Pending.initAwait }
  | initRejected (s : Sys) (h : Pending.initAwait ∈ s.tasks) :
      Step s (initFailure s)
  | retryFired (s : Sys) (d : Nat) (h : Pending.retryTimer d ∈ s.tasks) :
      Step s (initClient { s with tasks := s.tasks.erase (Pending.retryTimer d) })
  | manualReconnect (s : Sys) : Step s (reconnectEndpoint s).1

/-- State of the module-level variables before any code runs. -/
def blankState : Sys :=
  { qrCodeData := none
    isReady := false
    clientReady := false
    isReconnecting := false
    initializationAttempts := 0
    tasks := []
    destroyCalls := 0
    initCalls := 0 }

/-- State right after the top-level `initializeClient()` call of
server.js line 291 has run to its first suspension point. -/
def startupState : Sys := initClient blankState

/-- States reachable from process startup by scheduler steps. -/
inductive Reachable : Sys → Prop where
  | init : Reachable startupState
  | step {s s' : Sys} : Reachable s → Step s s' → Reachable s'

/-! ## The `/send-msg` route handler (server.js lines 373-489) -/

/-- JavaScript falsiness of the destructured request-body fields `to` and
`message` (server.js line 379): absent (`none`) or the empty string. -/
def falsy : Option (List Char) → Bool
  | none => true
  | some l => l.isEmpty

/-- The WhatsApp network suffix `"@c.us"` (server.js lines 407, 418). -/
def atCUs : List Char := "@c.us".toList

/-- JavaScript `String.prototype.replace` with a (non-empty) plain-string
pattern and the empty replacement string: remove the first occurrence of
`pat`, leave the string unchanged when `pat` does not occur.  Models
`phoneNumber.replace("@c.us", "")` (server.js line 407). -/
def stripFirst (pat : List Char) : List Char → List Char
  | [] => []
  | c :: rest =>
      if pat.isPrefixOf (c :: rest) then (c :: rest).drop pat.length
      else c :: stripFirst pat rest

/-- The destination normalization of server.js lines 404-407: remove every
non-digit character (`to.replace(/\D/g, "")`), then remove a pre-existing
`"@c.us"` marker (`.replace("@c.us", "")`). -/
def normalizePhone (dest : List Char) : List Char :=
  stripFirst atCUs (dest.filter Char.isDigit)

/-- JavaScript `String.prototype.includes` with a plain-string pattern:
does `pat` occur as a contiguous substring? -/
def containsSub (pat : List Char) : List Char → Bool
  | [] => pat.isEmpty
  | c :: rest => pat.isPrefixOf (c :: rest) || containsSub pat rest

/-- Oracle for the awaited `client.getNumberId(whatsappNumber)` call
(server.js line 424): it may resolve to a truthy number id (whose
`_serialized` field is carried), resolve to `null` (the number is not
registered), or reject. -/
inductive LookupOutcome where
  | found : List Char → LookupOutcome
  | nullResult : LookupOutcome
  | threw : LookupOutcome

/-- Oracle for the awaited `client.sendMessage(whatsappNumber, message)`
call (server.js line 439): resolve with the serialized message id, or
reject with an error message. -/
inductive SendAttempt where
  | ok : List Char → SendAttempt
  | threw : List Char → SendAttempt

/-- HTTP outcome of the `/send-msg` handler. -/
inductive SendResponse where
  | missingFields : SendResponse
  | reconnectingUnavailable : SendResponse
  | notReady : SendResponse
  | invalidPhone : SendResponse
  | success : List Char → List Char → SendResponse
  | failure : List Char → List Char → SendResponse
deriving DecidableEq

/-- `"Message sent..."` classified error texts of the catch block
(server.js lines 470-480). -/
def sessionExpiredMsg : List Char :=
  "WhatsApp session expired. Reconnecting automatically. Please try again in a few seconds.".toList

/-- Error text for `"No LID for user"` errors (server.js lines 473-474). -/
def notRegisteredMsg : List Char :=
  "The phone number is not registered on WhatsApp or cannot be found. Please verify the number is correct and has WhatsApp installed.".toList

/-- Error text for the sentinel message `"t"` (server.js lines 478-479). -/
def invalidContactMsg : List Char :=
  "Invalid phone number or contact not found. Please ensure the phone number is correct and includes the country code.".toList

/-- The initial value of `errorMessage` (server.js line 456). -/
def defaultFailMsg : List Char := "Failed to send message".toList

/-- The session-loss signature test of server.js lines 460-464:
`errorMsg.includes("Session closed") || errorMsg.includes("Target closed")
|| errorMsg.includes("Protocol error")`. -/
def sessionPattern (m : List Char) : Bool :=
  containsSub "Session closed".toList m ||
  containsSub "Target closed".toList m ||
  containsSub "Protocol error".toList m

/-- Result of the error classification in the catch block: the
user-visible `errorMessage` and whether the branch calls
`reconnectClient()`. -/
structure ClassifiedError where
  errorMessage : List Char
  triggerReconnect : Bool
deriving DecidableEq

/-- The `if/else if` cascade of the catch block (server.js lines 456-480),
applied to `errorMsg = error.message || ""`:  session-loss signatures
first (these also trigger reconnection), then `"No LID for user"`, then
any non-empty message other than the sentinel `"t"` is passed through raw,
then the sentinel `"t"`, else the default text. -/
def classifySendError (errMsg : List Char) : ClassifiedError :=
  if sessionPattern errMsg then
    { errorMessage := sessionExpiredMsg, triggerReconnect := true }
  else if containsSub "No LID for user".toList errMsg then
    { errorMessage := notRegisteredMsg, triggerReconnect := false }
  else if errMsg ≠ [] ∧ errMsg ≠ "t".toList then
    { errorMessage := errMsg, triggerReconnect := false }
  else if errMsg = "t".toList then
    { errorMessage := invalidContactMsg, triggerReconnect := false }
  else
    { errorMessage := defaultFailMsg, triggerReconnect := false }

/-- Everything the `/send-msg` handler produced: the HTTP outcome, ghost
counts of the `client.getNumberId` and `client.sendMessage` calls it
performed, and the system state after the handler (only the session-loss
branch of the catch block ever changes it). -/
structure SendMsgResult where
  response : SendResponse
  getNumberIdCalls : Nat
  sendMessageCalls : Nat
  finalState : Sys
deriving DecidableEq

/-- The `/send-msg` route handler (server.js lines 373-489) as a function
of the state, the request body fields and the two transport oracles.

Order of checks, as in the source: missing/falsy fields (line 379), then
readiness (line 386, distinguishing the reconnecting case), then
normalization and the minimum-length policy (lines 404-415), then the
`getNumberId` lookup whose rejection is swallowed (lines 422-436) and
whose truthy result replaces the recipient id, then `sendMessage`
(line 439) whose rejection is classified by the catch block, the
session-loss branch invoking `reconnectClient()` under a
`!isReconnecting` guard (lines 467-469). -/
def sendMsg (st : Sys) (dest message : Option (List Char))
    (lookup : LookupOutcome) (send : SendAttempt) : SendMsgResult :=
  if falsy dest || falsy message then
    { response := SendResponse.missingFields
      getNumberIdCalls := 0, sendMessageCalls := 0, finalState := st }
  else if st.clientReady = false then
    if st.isReconnecting then
      { response := SendResponse.reconnectingUnavailable
        getNumberIdCalls := 0, sendMessageCalls := 0, finalState := st }
    else
      { response := SendResponse.notReady
        getNumberIdCalls := 0, sendMessageCalls := 0, finalState := st }
  else
    let phoneNumber := normalizePhone (dest.getD [])
    if phoneNumber.isEmpty || decide (phoneNumber.length < 10) then
      { response := SendResponse.invalidPhone
        getNumberIdCalls := 0, sendMessageCalls := 0, finalState := st }
    else
      let whatsappNumber := phoneNumber ++ atCUs
      let whatsappNumber' :=
        match lookup with
        | LookupOutcome.found ser => ser
        | LookupOutcome.nullResult => whatsappNumber
        | LookupOutcome.threw => whatsappNumber
      match send with
      | SendAttempt.ok msgId =>
          { response := SendResponse.success msgId whatsappNumber'
            getNumberIdCalls := 1, sendMessageCalls := 1, finalState := st }
      | SendAttempt.threw errMsg =>
          let c := classifySendError errMsg
          let st' :=
            if c.triggerReconnect && !st.isReconnecting then reconnectClient st
            else st
          { response := SendResponse.failure c.errorMessage errMsg
            getNumberIdCalls := 1, sendMessageCalls := 1, finalState := st' }

/-! ## Concrete scheduler traces used by the claims -/

/-- The startup `client.initialize()` resolves without error. -/
def bootOk : Sys := { startupState with tasks := startupState.tasks.erase Pending.initAwait }

/-- ... and the transport then emits `ready`. -/
def readyState : Sys := handleEvent Event.ready bootOk

/-- A recoverable `disconnected` event arrives in the ready state: the
handler starts a reconnection cycle (first `client.destroy()` in flight). -/
def burstState1 : Sys := handleEvent (Event.disconnected "NAVIGATION".toList) readyState

/-- A second recoverable `disconnected` event arrives while the first
cycle's `destroy` is still pending. -/
def burstState2 : Sys := handleEvent (Event.disconnected "CONNECTION_CLOSED".toList) burstState1

/-- In the single-cycle run, the pending `destroy` of `burstState1`
settles and the 2000 ms settle timer is scheduled. -/
def settledState : Sys := finishDestroy burstState1

/-- ... and the settle timer fires, running `initializeClient` up to its
suspension on `client.initialize()`. -/
def reinitAfterSettle : Sys :=
  initClient { settledState with tasks := settledState.tasks.erase (Pending.settleTimer 2000) }

/-- The startup `client.initialize()` rejects: first bootstrap failure. -/
def bootFail1 : Sys := initFailure startupState

/-- The 5000 ms retry timer fires: second bootstrap attempt in flight. -/
def bootRetry2 : Sys :=
  initClient { bootFail1 with tasks := bootFail1.tasks.erase (Pending.retryTimer 5000) }

/-- The second bootstrap attempt resolves without error... -/
def bootOk2 : Sys := { bootRetry2 with tasks := bootRetry2.tasks.erase Pending.initAwait }

/-- ... and the transport emits `ready` after one failed attempt. -/
def readyAfterRetry : Sys := handleEvent Event.ready bootOk2

/-- In the persistent-failure run, the second bootstrap attempt rejects. -/
def bootFail2 : Sys := initFailure bootRetry2

/-- The retry timer fires again: third bootstrap attempt in flight. -/
def bootRetry3 : Sys :=
  initClient { bootFail2 with tasks := bootFail2.tasks.erase (Pending.retryTimer 5000) }

/-- The third bootstrap attempt rejects as well: the retry budget is
exhausted. -/
def bootFail3 : Sys := initFailure bootRetry3

/-! ## Claims -/

/-- C1, counterexample.  A second recoverable `disconnected` event arriving
while the first cycle's `Transport.destroy()` is still pending starts a
second concurrent cycle: the guard `isReconnecting` set by the first cycle
(`burstState1.isReconnecting = true`, with its `destroyAwait` still in
flight) does not prevent the second event from performing a second
`client.destroy()` — the handler clears the guard itself before calling
`reconnectClient`.  After the two events, two `destroy` calls have been
made and two destroy continuations are pending simultaneously. -/
theorem C1_counterexample :
    Reachable burstState2 ∧
    burstState1.isReconnecting = true ∧
    Pending.destroyAwait ∈ burstState1.tasks ∧
    burstState1.destroyCalls = 1 ∧
    burstState2.destroyCalls = 2 ∧
    burstState2.tasks.count Pending.destroyAwait = 2 := by
  refine ⟨?_, by decide, by decide, by decide, by decide, by decide⟩
  have h1 : Reachable bootOk :=
    Reachable.step Reachable.init (Step.initResolved startupState (by decide))
  have h2 : Reachable readyState :=
    Reachable.step h1 (Step.event Event.ready bootOk)
  have h3 : Reachable burstState1 :=
    Reachable.step h2 (Step.event (Event.disconnected "NAVIGATION".toList) readyState)
  exact Reachable.step h3 (Step.event (Event.disconnected "CONNECTION_CLOSED".toList) burstState1)

/-- C1, amended.  The `disconnected` handler unconditionally clears
`isReconnecting` before invoking `reconnectClient()`, so the guard never
blocks an event-triggered cycle: every recoverable `disconnected` event —
including one arriving mid-cycle — performs one more `client.destroy()`
and leaves a fresh destroy continuation in flight with the guard set. -/
theorem C1_recoverable_disconnect_always_starts_cycle :
    ∀ (s : Sys) (r : List Char), recoverableReason r = true →
      (handleEvent (Event.disconnected r) s).destroyCalls = s.destroyCalls + 1 ∧
      (handleEvent (Event.disconnected r) s).isReconnecting = true ∧
      Pending.destroyAwait ∈ (handleEvent (Event.disconnected r) s).tasks := by
  intro s r h
  simp [handleEvent, h, reconnectClient]

/-- C1, witness for the amended theorem at a concrete mid-cycle state. -/
theorem C1_recoverable_disconnect_always_starts_cycle_witness :
    (handleEvent (Event.disconnected "CONNECTION_CLOSED".toList) burstState1).destroyCalls =
        burstState1.destroyCalls + 1 ∧
    (handleEvent (Event.disconnected "CONNECTION_CLOSED".toList) burstState1).isReconnecting = true ∧
    Pending.destroyAwait ∈ (handleEvent (Event.disconnected "CONNECTION_CLOSED".toList) burstState1).tasks :=
  C1_recoverable_disconnect_always_starts_cycle burstState1 "CONNECTION_CLOSED".toList (by decide)

/-- C2, counterexample.  The `ready` handler does not reset
`initializationAttempts`: after one failed bootstrap attempt followed by a
successful retry and a `ready` event, the reachable state has
`clientReady = true` and `qrCodeData = null` but an attempt counter of 1,
not 0. -/
theorem C2_counterexample :
    Reachable readyAfterRetry ∧
    readyAfterRetry.clientReady = true ∧
    readyAfterRetry.qrCodeData = none ∧
    readyAfterRetry.initializationAttempts = 1 := by
  refine ⟨?_, by decide, by decide, by decide⟩
  have h1 : Reachable bootFail1 :=
    Reachable.step Reachable.init (Step.initRejected startupState (by decide))
  have h2 : Reachable bootRetry2 :=
    Reachable.step h1 (Step.retryFired bootFail1 5000 (by decide))
  have h3 : Reachable bootOk2 :=
    Reachable.step h2 (Step.initResolved bootRetry2 (by decide))
  exact Reachable.step h3 (Step.event Event.ready bootOk2)

/-- C2, amended.  The `ready` handler clears `qrCodeData` and
`isReconnecting` and marks the client ready, but leaves
`initializationAttempts` exactly as it was — the counter is not reset on
`ready`, so it is 0 in a ready state only when it was already 0 before the
event. -/
theorem C2_ready_effect :
    ∀ s : Sys,
      (handleEvent Event.ready s).qrCodeData = none ∧
      (handleEvent Event.ready s).isReconnecting = false ∧
      (handleEvent Event.ready s).clientReady = true ∧
      (handleEvent Event.ready s).isReady = true ∧
      (handleEvent Event.ready s).initializationAttempts = s.initializationAttempts := by
  intro s
  exact ⟨rfl, rfl, rfl, rfl, rfl⟩

/-- C3, counterexample.  Mid-cycle, with the guard still set
(`settledState.isReconnecting = true`) and the settle timer pending, the
scheduler step that fires the settle timer — a step of the
`reconnectClient`-initiated sequence itself, not a `ready`, `auth_failure`
or `disconnected` event — produces a state with `isReconnecting = false`:
the delayed re-initialization clears the flag directly. -/
theorem C3_counterexample :
    Reachable settledState ∧
    settledState.isReconnecting = true ∧
    Pending.settleTimer 2000 ∈ settledState.tasks ∧
    Step settledState reinitAfterSettle ∧
    reinitAfterSettle.isReconnecting = false := by
  refine ⟨?_, by decide, by decide,
    Step.settleFired settledState 2000 (by decide), by decide⟩
  have h1 : Reachable bootOk :=
    Reachable.step Reachable.init (Step.initResolved startupState (by decide))
  have h2 : Reachable readyState :=
    Reachable.step h1 (Step.event Event.ready bootOk)
  have h3 : Reachable burstState1 :=
    Reachable.step h2 (Step.event (Event.disconnected "NAVIGATION".toList) readyState)
  exact Reachable.step h3 (Step.destroyResolved burstState1 (by decide))

/-- C3, amended.  `initializeClient` — the function the settle timer and
the retry timer run — sets `isReconnecting := false` directly as its first
action, before suspending on transport bootstrap; so the flag set by
`reconnectClient` is cleared by the cycle's own delayed re-initialization
step, not only by terminal events.  The terminal events behave as the
table says: `ready` and `auth_failure` clear the flag, while a
`disconnected` event leaves it equal to whether its reason is recoverable
(it clears the flag and then immediately re-enters a new cycle when the
reason is recoverable). -/
theorem C3_flag_clearing :
    (∀ s : Sys, (initClient s).isReconnecting = false) ∧
    (∀ s : Sys, (handleEvent Event.ready s).isReconnecting = false) ∧
    (∀ s : Sys, (handleEvent Event.authFailure s).isReconnecting = false) ∧
    (∀ (s : Sys) (r : List Char),
      (handleEvent (Event.disconnected r) s).isReconnecting = recoverableReason r) := by
  refine ⟨fun s => rfl, fun s => rfl, fun s => rfl, fun s r => ?_⟩
  rcases hr : recoverableReason r with _ | _ <;>
    simp [handleEvent, hr, reconnectClient]

/-- C5.  Bounded-retry bootstrap.  The catch block of `initializeClient`
increments the attempt counter on every rejected bootstrap and schedules a
5000 ms retry exactly while the incremented counter is still below
`maxInitAttempts = 3`; at 3 failed attempts nothing further is scheduled.
In the persistent-failure run from process startup, `client.initialize()`
is invoked exactly 3 times, after which the attempt counter is 3, the
client is not ready, and no scheduled work is pending — every further step
of the system is either a transport event or the manual `/reconnect`
trigger. -/
theorem C5_bounded_retry :
    Reachable bootFail3 ∧
    bootFail3.initCalls = 3 ∧
    bootFail3.initializationAttempts = 3 ∧
    bootFail3.clientReady = false ∧
    bootFail3.tasks = [] ∧
    (∀ s : Sys, (initFailure s).initializationAttempts = s.initializationAttempts + 1) ∧
    (∀ s : Sys, s.initializationAttempts + 1 < maxInitAttempts →
      (initFailure s).tasks = Pending.retryTimer 5000 :: s.tasks.erase Pending.initAwait) ∧
    (∀ s : Sys, maxInitAttempts ≤ s.initializationAttempts + 1 →
      (initFailure s).tasks = s.tasks.erase Pending.initAwait) ∧
    (∀ s' : Sys, Step bootFail3 s' →
      (∃ e : Event, s' = handleEvent e bootFail3) ∨ s' = (reconnectEndpoint bootFail3).1) := by
  have htasks : bootFail3.tasks = [] := by decide
  refine ⟨?_, by decide, by decide, by decide, htasks, fun s => rfl, ?_, ?_, ?_⟩
  · have h1 : Reachable bootFail1 :=
      Reachable.step Reachable.init (Step.initRejected startupState (by decide))
    have h2 : Reachable bootRetry2 :=
      Reachable.step h1 (Step.retryFired bootFail1 5000 (by decide))
    have h3 : Reachable bootFail2 :=
      Reachable.step h2 (Step.initRejected bootRetry2 (by decide))
    have h4 : Reachable bootRetry3 :=
      Reachable.step h3 (Step.retryFired bootFail2 5000 (by decide))
    exact Reachable.step h4 (Step.initRejected bootRetry3 (by decide))
  · intro s h
    simp [initFailure, h]
  · intro s h
    simp [initFailure, Nat.not_lt_of_le h]
  · intro s' hstep
    cases hstep with
    | event e s => exact Or.inl ⟨e, rfl⟩
    | destroyResolved s h =>
        rw [htasks] at h
        exact absurd h (List.not_mem_nil _)
    | settleFired s d h =>
        rw [htasks] at h
        exact absurd h (List.not_mem_nil _)
    | initResolved s h =>
        rw [htasks] at h
        exact absurd h (List.not_mem_nil _)
    | initRejected s h =>
        rw [htasks] at h
        exact absurd h (List.not_mem_nil _)
    | retryFired s d h =>
        rw [htasks] at h
        exact absurd h (List.not_mem_nil _)
    | manualReconnect s => exact Or.inr rfl

/-- C5, witness: the retry-scheduling branch instantiated after the first
failure (retry scheduled), the stop branch at the third failure (nothing
scheduled), and the step-inversion at a concrete `ready` event. -/
theorem C5_bounded_retry_witness :
    (initFailure startupState).tasks =
      Pending.retryTimer 5000 :: startupState.tasks.erase Pending.initAwait ∧
    (initFailure bootRetry3).tasks = bootRetry3.tasks.erase Pending.initAwait ∧
    ((∃ e : Event, handleEvent Event.ready bootFail3 = handleEvent e bootFail3) ∨
      handleEvent Event.ready bootFail3 = (reconnectEndpoint bootFail3).1) :=
  ⟨C5_bounded_retry.2.2.2.2.2.2.1 startupState (by decide),
   C5_bounded_retry.2.2.2.2.2.2.2.1 bootRetry3 (by decide),
   C5_bounded_retry.2.2.2.2.2.2.2.2 (handleEvent Event.ready bootFail3)
     (Step.event Event.ready bootFail3)⟩

/-- C8.  Calling `reconnectClient` while `isReconnecting` is already set
is a strict no-op: the state — and in particular the `destroy` call
counter — is unchanged, and the `/reconnect` endpoint answers with the 409
conflict response, leaving the state untouched, rather than queueing the
request. -/
theorem C8_reconnect_idempotent :
    ∀ s : Sys, s.isReconnecting = true →
      reconnectClient s = s ∧
      (reconnectClient s).destroyCalls = s.destroyCalls ∧
      reconnectEndpoint s = (s, ReconnectResponse.conflict) := by
  intro s h
  simp [reconnectClient, reconnectEndpoint, h]

/-- C8, witness at the concrete reachable mid-cycle state `burstState1`
(guard set, one `destroy` in flight). -/
theorem C8_reconnect_idempotent_witness :
    reconnectClient burstState1 = burstState1 ∧
    (reconnectClient burstState1).destroyCalls = burstState1.destroyCalls ∧
    reconnectEndpoint burstState1 = (burstState1, ReconnectResponse.conflict) :=
  C8_reconnect_idempotent burstState1 (by decide)

/-- C9.  The missing-fields validation of the `/send-msg` handler runs
before the readiness check: whenever `to` or `message` is absent or empty
(JavaScript-falsy), the handler answers the 400 missing-fields error with
no transport call and no state change — for every state, including states
where the client is not ready or is reconnecting. -/
theorem C9_missing_fields_before_readiness :
    ∀ (st : Sys) (dest message : Option (List Char))
      (lookup : LookupOutcome) (send : SendAttempt),
      falsy dest = true ∨ falsy message = true →
      sendMsg st dest message lookup send =
        { response := SendResponse.missingFields
          getNumberIdCalls := 0, sendMessageCalls := 0, finalState := st } := by
  intro st dest message lookup send h
  rcases h with h | h <;> simp [sendMsg, h]

/-- C9, witness: a request with no `to` field against the not-ready startup
state is answered with the missing-fields error, not the not-ready error. -/
theorem C9_missing_fields_before_readiness_witness :
    sendMsg startupState none (some "hello".toList)
        LookupOutcome.nullResult (SendAttempt.ok "id".toList) =
      { response := SendResponse.missingFields
        getNumberIdCalls := 0, sendMessageCalls := 0, finalState := startupState } ∧
    startupState.clientReady = false :=
  ⟨C9_missing_fields_before_readiness startupState none (some "hello".toList)
      LookupOutcome.nullResult (SendAttempt.ok "id".toList) (Or.inl (by decide)),
   by decide⟩

/-- C6.  Destination normalization strips every non-digit character and any
pre-existing `"@c.us"` marker and then requires at least 10 digits:
`"+1 (234) 567-8900"` normalizes to exactly `"12345678900"` (11 digits,
which passes the threshold), and for every ready state and every non-empty
request, an input whose digit string is shorter than 10 digits — such as
`"12345"` — is answered with the invalid-recipient error and neither
`getNumberId` nor `sendMessage` is invoked, whatever those calls would
have returned. -/
theorem C6_normalization_and_threshold :
    normalizePhone "+1 (234) 567-8900".toList = "12345678900".toList ∧
    ¬ ("12345678900".toList.length < 10) ∧
    (normalizePhone "12345".toList).length < 10 ∧
    (∀ (st : Sys) (dest message : List Char)
       (lookup : LookupOutcome) (send : SendAttempt),
      st.clientReady = true → dest ≠ [] → message ≠ [] →
      (normalizePhone dest).length < 10 →
      sendMsg st (some dest) (some message) lookup send =
        { response := SendResponse.invalidPhone
          getNumberIdCalls := 0, sendMessageCalls := 0, finalState := st }) := by
  refine ⟨by decide, by decide, by decide, ?_⟩
  intro st dest message lookup send hcr hd hm hlen
  have hfd : falsy (some dest) = false := by
    simp [falsy, List.isEmpty_iff, hd]
  have hfm : falsy (some message) = false := by
    simp [falsy, List.isEmpty_iff, hm]
  simp [sendMsg, hfd, hfm, hcr, hlen]

/-- C6, witness: sending to `"12345"` from the concrete ready state fails
with the invalid-recipient error and performs no transport call. -/
theorem C6_normalization_and_threshold_witness :
    sendMsg readyState (some "12345".toList) (some "hello".toList)
        LookupOutcome.nullResult (SendAttempt.ok "id".toList) =
      { response := SendResponse.invalidPhone
        getNumberIdCalls := 0, sendMessageCalls := 0, finalState := readyState } :=
  C6_normalization_and_threshold.2.2.2 readyState "12345".toList "hello".toList
    LookupOutcome.nullResult (SendAttempt.ok "id".toList)
    (by decide) (by decide) (by decide) (by decide)

/-- Modelled from the spec's words for C10: the normalization described as
"the plain digit filter alone". -/
def plainDigitFilter (dest : List Char) : List Char :=
  dest.filter Char.isDigit

/-- On a list of digit characters, removing the first occurrence of
`"@c.us"` changes nothing: the pattern starts with `'@'`, which is not a
digit. -/
theorem stripFirst_atCUs_of_digits (l : List Char)
    (h : ∀ c ∈ l, c.isDigit = true) : stripFirst atCUs l = l := by
  induction l with
  | nil => rfl
  | cons c rest ih =>
      have hc : c.isDigit = true := h c (List.mem_cons_self c rest)
      have hat : atCUs = '@' :: "c.us".toList := by decide
      have hne : ('@' == c) = false := by
        apply beq_eq_false_iff_ne.mpr
        intro hEq
        rw [← hEq] at hc
        exact absurd hc (by decide)
      have hpre : atCUs.isPrefixOf (c :: rest) = false := by
        rw [hat]
        simp [List.isPrefixOf, hne]
      rw [stripFirst, hpre]
      simp only [if_neg Bool.false_ne_true]
      exact congrArg (c :: ·) (ih fun x hx => h x (List.mem_cons_of_mem c hx))

/-- C10.  The network-suffix-strip step of the implemented normalization is
vacuous: after all non-digit characters are removed the string contains
only digits, so removing `"@c.us"` never changes it, and the two-step
normalization agrees with the plain digit filter on every input. -/
theorem C10_suffix_strip_vacuous :
    ∀ dest : List Char, normalizePhone dest = plainDigitFilter dest := by
  intro dest
  exact stripFirst_atCUs_of_digits (dest.filter Char.isDigit)
    (fun c hc => (List.mem_filter.mp hc).2)

/-- C4, counterexample.  When `getNumberId` resolves `null` — the explicit
"not registered" answer — the handler does NOT fail fast: in the concrete
ready state, with the lookup reporting a clear negative, `sendMessage` is
still invoked (call count 1, not 0) and the request succeeds with the
normalized `digits@c.us` identifier instead of returning a not-on-platform
error. -/
theorem C4_counterexample :
    (sendMsg readyState (some "1234567890".toList) (some "hello".toList)
        LookupOutcome.nullResult (SendAttempt.ok "msgid".toList)).sendMessageCalls = 1 ∧
    (sendMsg readyState (some "1234567890".toList) (some "hello".toList)
        LookupOutcome.nullResult (SendAttempt.ok "msgid".toList)).response =
      SendResponse.success "msgid".toList "1234567890@c.us".toList := by
  exact ⟨by decide, by decide⟩

/-- C4, amended.  A `null` result from `getNumberId` is treated exactly
like an ambiguous lookup failure: the handler proceeds optimistically in
both cases, producing identical outcomes, and sends to the normalized
`digits@c.us` identifier; only a truthy lookup result substitutes its
serialized identity as the recipient. -/
theorem C4_null_lookup_proceeds :
    (∀ (st : Sys) (dest message : Option (List Char)) (send : SendAttempt),
      sendMsg st dest message LookupOutcome.nullResult send =
        sendMsg st dest message LookupOutcome.threw send) ∧
    (∀ (st : Sys) (dest message msgId : List Char),
      st.clientReady = true → dest ≠ [] → message ≠ [] →
      ¬ (normalizePhone dest).length < 10 →
      (sendMsg st (some dest) (some message) LookupOutcome.nullResult
          (SendAttempt.ok msgId)).response =
        SendResponse.success msgId (normalizePhone dest ++ atCUs) ∧
      (sendMsg st (some dest) (some message) LookupOutcome.nullResult
          (SendAttempt.ok msgId)).sendMessageCalls = 1) ∧
    (∀ (st : Sys) (dest message ser msgId : List Char),
      st.clientReady = true → dest ≠ [] → message ≠ [] →
      ¬ (normalizePhone dest).length < 10 →
      (sendMsg st (some dest) (some message) (LookupOutcome.found ser)
          (SendAttempt.ok msgId)).response =
        SendResponse.success msgId ser) := by
  refine ⟨fun st dest message send => rfl, ?_, ?_⟩
  · intro st dest message msgId hcr hd hm hlen
    have hfd : falsy (some dest) = false := by
      simp [falsy, List.isEmpty_iff, hd]
    have hfm : falsy (some message) = false := by
      simp [falsy, List.isEmpty_iff, hm]
    have hne : (normalizePhone dest).isEmpty = false := by
      rcases hn : normalizePhone dest with _ | ⟨c, rest⟩
      · rw [hn] at hlen
        exact absurd (by decide) hlen
      · rfl
    simp [sendMsg, hfd, hfm, hcr, hlen, hne]
  · intro st dest message ser msgId hcr hd hm hlen
    have hfd : falsy (some dest) = false := by
      simp [falsy, List.isEmpty_iff, hd]
    have hfm : falsy (some message) = false := by
      simp [falsy, List.isEmpty_iff, hm]
    have hne : (normalizePhone dest).isEmpty = false := by
      rcases hn : normalizePhone dest with _ | ⟨c, rest⟩
      · rw [hn] at hlen
        exact absurd (by decide) hlen
      · rfl
    simp [sendMsg, hfd, hfm, hcr, hlen, hne]

/-- C4, witness for the amended theorem at concrete inputs. -/
theorem C4_null_lookup_proceeds_witness :
    (sendMsg readyState (some "1234567890".toList) (some "hello".toList)
        LookupOutcome.nullResult (SendAttempt.threw "boom".toList)) =
      (sendMsg readyState (some "1234567890".toList) (some "hello".toList)
        LookupOutcome.threw (SendAttempt.threw "boom".toList)) ∧
    (sendMsg readyState (some "1234567890".toList) (some "hello".toList)
        LookupOutcome.nullResult (SendAttempt.ok "msgid".toList)).response =
      SendResponse.success "msgid".toList (normalizePhone "1234567890".toList ++ atCUs) ∧
    (sendMsg readyState (some "1234567890".toList) (some "hello".toList)
        (LookupOutcome.found "5211234567890@c.us".toList)
        (SendAttempt.ok "msgid".toList)).response =
      SendResponse.success "msgid".toList "5211234567890@c.us".toList :=
  ⟨C4_null_lookup_proceeds.1 readyState (some "1234567890".toList)
      (some "hello".toList) (SendAttempt.threw "boom".toList),
   (C4_null_lookup_proceeds.2.1 readyState "1234567890".toList "hello".toList
      "msgid".toList (by decide) (by decide) (by decide) (by decide)).1,
   C4_null_lookup_proceeds.2.2 readyState "1234567890".toList "hello".toList
      "5211234567890@c.us".toList "msgid".toList
      (by decide) (by decide) (by decide) (by decide)⟩

/-- C7, counterexample.  The claim's third class — "everything else passes
the raw message through" — fails on the sentinel message `"t"`: it matches
neither a session-loss signature nor the not-registered indication, yet
the classified message is not the raw `"t"` but the invalid-contact
explanation. -/
theorem C7_counterexample :
    sessionPattern "t".toList = false ∧
    containsSub "No LID for user".toList "t".toList = false ∧
    (classifySendError "t".toList).errorMessage ≠ "t".toList ∧
    (classifySendError "t".toList).errorMessage = invalidContactMsg := by
  exact ⟨by decide, by decide, by decide, by decide⟩

/-- C7, amended.  Send errors are classified in order of specificity:
session-loss signatures first (these map to the session-expired message
and are the only class that triggers `reconnectClient`), then the explicit
`"No LID for user"` not-registered indication, then any non-empty message
other than the sentinel `"t"` has its raw text passed through; the
sentinel `"t"` maps to an invalid-contact explanation and the empty
message to the generic failure text.  Only the session-loss class triggers
an autonomous recovery action; for every other class — and for any
successful send — the handler leaves the session state unchanged. -/
theorem C7_error_classification :
    (∀ m : List Char, sessionPattern m = true →
      classifySendError m =
        { errorMessage := sessionExpiredMsg, triggerReconnect := true }) ∧
    (∀ m : List Char, sessionPattern m = false →
      containsSub "No LID for user".toList m = true →
      classifySendError m =
        { errorMessage := notRegisteredMsg, triggerReconnect := false }) ∧
    (∀ m : List Char, sessionPattern m = false →
      containsSub "No LID for user".toList m = false →
      m ≠ [] → m ≠ "t".toList →
      classifySendError m = { errorMessage := m, triggerReconnect := false }) ∧
    classifySendError "t".toList =
      { errorMessage := invalidContactMsg, triggerReconnect := false } ∧
    classifySendError [] =
      { errorMessage := defaultFailMsg, triggerReconnect := false } ∧
    (∀ m : List Char,
      (classifySendError m).triggerReconnect = true ↔ sessionPattern m = true) ∧
    (∀ (st : Sys) (dest message : Option (List Char))
       (lookup : LookupOutcome) (m : List Char),
      (classifySendError m).triggerReconnect = false →
      (sendMsg st dest message lookup (SendAttempt.threw m)).finalState = st) ∧
    (∀ (st : Sys) (dest message : Option (List Char))
       (lookup : LookupOutcome) (msgId : List Char),
      (sendMsg st dest message lookup (SendAttempt.ok msgId)).finalState = st) := by
  refine ⟨?_, ?_, ?_, by decide, by decide, ?_, ?_, ?_⟩
  · intro m h
    simp [classifySendError, h]
  · intro m hs hl
    unfold classifySendError
    split_ifs <;> simp_all
  · intro m hs hl hne hnt
    unfold classifySendError
    split_ifs <;> simp_all
  · intro m
    unfold classifySendError
    split_ifs with h1 h2 h3 h4 <;> simp [h1]
  · intro st dest message lookup m h
    unfold sendMsg
    split_ifs <;> try rfl
    dsimp only
    split <;> simp [h]
  · intro st dest message lookup msgId
    unfold sendMsg
    split_ifs <;> try rfl
    dsimp only
    split <;> rfl

/-- C7, witness: the ordering at a message carrying both a session-loss
signature and the not-registered indication (classified as session loss),
the not-registered class, the raw pass-through class, and the
state-preservation of a non-session failure at a concrete ready state. -/
theorem C7_error_classification_witness :
    classifySendError "Protocol error: No LID for user".toList =
      { errorMessage := sessionExpiredMsg, triggerReconnect := true } ∧
    classifySendError "No LID for user".toList =
      { errorMessage := notRegisteredMsg, triggerReconnect := false } ∧
    classifySendError "ECONNRESET".toList =
      { errorMessage := "ECONNRESET".toList, triggerReconnect := false } ∧
    (sendMsg readyState (some "1234567890".toList) (some "hello".toList)
        LookupOutcome.threw (SendAttempt.threw "ECONNRESET".toList)).finalState =
      readyState :=
  ⟨C7_error_classification.1 "Protocol error: No LID for user".toList (by decide),
   C7_error_classification.2.1 "No LID for user".toList (by decide) (by decide),
   C7_error_classification.2.2.1 "ECONNRESET".toList
     (by decide) (by decide) (by decide) (by decide),
   C7_error_classification.2.2.2.2.2.2.1 readyState (some "1234567890".toList)
     (some "hello".toList) LookupOutcome.threw "ECONNRESET".toList (by decide)⟩
